import Mathlib

/-!
Shallow embedding of `src/blueprint_generator.py` (Factorio blueprint creator).

Modelling conventions:
* Python floats are modelled by `ℚ`.  Every float computation the program
  performs is exact in IEEE double precision: the divisions `1.0/3.2` and
  `2.0/3.2` round to exactly `0.3125` and `0.625` (both representable), and
  `15/0.3125`, `30/0.3125`, `45/0.3125`, `15/0.625`, `30/0.625`, `45/0.625`
  are exact power-of-two-friendly divisions yielding 48, 96, 144, 24, 48, 72;
  all coordinates are small integers and rotation only swaps and negates.
  Hence the rational model agrees with the float execution on every reachable
  value.
* Python `dict` lookups that can raise `KeyError`, and `raise ValueError`,
  are modelled with `Except Err`.
* Python `round` is round-half-to-even (`pythonRound` below).
* Python `%` on integers with a positive modulus agrees with `Int.emod`.
-/

namespace Blueprint

/-- Error type distinguishing Python `KeyError` (unknown furnace/belt/side
identifier) from `ValueError` (validation failure / `list.index` miss). -/
inductive Err where
  | keyError (key : String)
  | valueError (msg : String)
deriving DecidableEq, Repr

/-- `BELT_THROUGHPUT_ITEMS_PER_SEC` dict: items/second for each belt type. -/
def BELT_THROUGHPUT_ITEMS_PER_SEC (belt : String) : Option ℚ :=
  if belt = "transport-belt" then some 15
  else if belt = "fast-transport-belt" then some 30
  else if belt = "express-transport-belt" then some 45
  else none

/-- `FURNACE_SPEED` dict: crafting speed multiplier for each furnace type. -/
def FURNACE_SPEED (furnace : String) : Option ℚ :=
  if furnace = "stone-furnace" then some 1
  else if furnace = "steel-furnace" then some 2
  else if furnace = "electric-furnace" then some 2
  else none

/-- `SMELTING_TIME_SECONDS = 3.2` (exact rational 16/5). -/
def SMELTING_TIME_SECONDS : ℚ := 16 / 5

/-- `FurnaceLineConfig` dataclass. -/
structure FurnaceLineConfig where
  furnace : String := "stone-furnace"
  belt : String := "transport-belt"
  length : Option ℤ := none
  input_side : String := "north"
  output_side : String := "south"
  blueprint_label : String := "Furnace line"
deriving DecidableEq, Repr

/-- `clamp_length(value) = max(1, min(value, 200))`. -/
def clamp_length (value : ℤ) : ℤ := max 1 (min value 200)

/-- `furnaces_per_full_belt`: belt rate divided by furnace rate, where the
furnace rate is speed / smelting time.  Dict lookups may raise `KeyError`;
the belt lookup is evaluated first, as in the source. -/
def furnaces_per_full_belt (furnace belt : String) : Except Err ℚ := do
  let belt_rate ← match BELT_THROUGHPUT_ITEMS_PER_SEC belt with
    | some r => Except.ok r
    | none => Except.error (Err.keyError belt)
  let speed ← match FURNACE_SPEED furnace with
    | some s => Except.ok s
    | none => Except.error (Err.keyError furnace)
  Except.ok (belt_rate / (speed / SMELTING_TIME_SECONDS))

/-- Python `round` on an exact value: round half to even. -/
def pythonRound (q : ℚ) : ℤ :=
  let f := ⌊q⌋
  let frac := q - (f : ℚ)
  if frac < 1 / 2 then f
  else if 1 / 2 < frac then f + 1
  else if f % 2 = 0 then f else f + 1

/-- `calculate_furnace_count`: an explicit length is clamped and returned
without consulting the throughput tables; otherwise the required count is
`round` of `furnaces_per_full_belt`, clamped. -/
def calculate_furnace_count (config : FurnaceLineConfig) : Except Err ℤ :=
  match config.length with
  | some l => Except.ok (clamp_length l)
  | none => do
      let furnaces_needed ← furnaces_per_full_belt config.furnace config.belt
      Except.ok (clamp_length (pythonRound furnaces_needed))

/-- `direction_to_int` dict: north 0, east 2, south 4, west 6.  Every call
site in the program passes one of these four literal keys, so the lookup
never raises. -/
def direction_to_int (direction : String) : Option ℤ :=
  if direction = "north" then some 0
  else if direction = "east" then some 2
  else if direction = "south" then some 4
  else if direction = "west" then some 6
  else none

/-- `rotate_point(x, y, rotation_steps)`: `rotation_steps %= 4` (Python `%`
with positive modulus = `Int.emod`), then the four exact sign/swap cases. -/
def rotate_point (x y : ℚ) (rotation_steps : ℤ) : ℚ × ℚ :=
  let r := rotation_steps % 4
  if r = 0 then (x, y)
  else if r = 1 then (y, -x)
  else if r = 2 then (-x, -y)
  else (-y, x)

/-- `rotate_direction(direction, rotation_steps) = (direction + rotation_steps*2) % 8`. -/
def rotate_direction (direction rotation_steps : ℤ) : ℤ :=
  (direction + rotation_steps * 2) % 8

/-- One placed entity.  In the source each entity is a dict with keys
`name`, `position` (`x`/`y` floats), `direction`, and later `entity_number`
(absent until `attach_entity_numbers` adds it, hence `Option`). -/
structure Entity where
  name : String
  x : ℚ
  y : ℚ
  direction : ℤ
  entity_number : Option ℤ := none
deriving DecidableEq, Repr

/-- `iter_furnace_positions(count)`: `(2*i, 0.0)` for `i in range(count)`.
`range` of a non-positive integer is empty, matching `Int.toNat`. -/
def iter_furnace_positions (count : ℤ) : List (ℚ × ℚ) :=
  (List.range count.toNat).map (fun index => ((2 * index : ℕ), 0))

/-- `iter_belt_positions(count)`: `(i, 0.0)` for `i in range(count*2)`. -/
def iter_belt_positions (count : ℤ) : List (ℚ × ℚ) :=
  (List.range (count * 2).toNat).map (fun index => ((index : ℕ), 0))

/-- `build_furnace_entities`. -/
def build_furnace_entities (count : ℤ) (direction : ℤ) (furnace : String) :
    List Entity :=
  (iter_furnace_positions count).map (fun p =>
    { name := furnace, x := p.1, y := p.2, direction := direction })

/-- `build_belt_entities`: belt segments at `(i, y_offset)`; the `y` yielded
by `iter_belt_positions` is discarded, as in the source (`for x, _ in ...`). -/
def build_belt_entities (count : ℤ) (belt : String) (y_offset : ℚ)
    (direction : ℤ) : List Entity :=
  (iter_belt_positions count).map (fun p =>
    { name := belt, x := p.1, y := y_offset, direction := direction })

/-- `build_inserter_entities`: inserters at `(2*i, y_offset)`. -/
def build_inserter_entities (count : ℤ) (inserter_direction : ℤ)
    (y_offset : ℚ) : List Entity :=
  (List.range count.toNat).map (fun index =>
    { name := "inserter", x := ((2 * index : ℕ) : ℚ), y := y_offset,
      direction := inserter_direction })

/-- `build_coal_merge_entities`: three fixed belt segments; the
`direction_to_int` calls use the literal keys "north" and "east". -/
def build_coal_merge_entities (belt : String) : List Entity :=
  [ { name := belt, x := -1, y := -5, direction := (direction_to_int "north").getD 0 },
    { name := belt, x := -1, y := -4, direction := (direction_to_int "north").getD 0 },
    { name := belt, x := -1, y := -3, direction := (direction_to_int "east").getD 0 } ]

/-- `rotation_steps_for_input`: index of the input side in
`["north", "east", "south", "west"]`; `list.index` raises `ValueError`
when the value is absent. -/
def rotation_steps_for_input (input_side : String) : Except Err ℤ :=
  if input_side = "north" then Except.ok 0
  else if input_side = "east" then Except.ok 1
  else if input_side = "south" then Except.ok 2
  else if input_side = "west" then Except.ok 3
  else Except.error (Err.valueError "not in list")

/-- The `opposites` dict inside `validate_sides`. -/
def opposites (side : String) : Option String :=
  if side = "north" then some "south"
  else if side = "south" then some "north"
  else if side = "east" then some "west"
  else if side = "west" then some "east"
  else none

/-- `validate_sides`: `opposites[input_side]` may raise `KeyError`; a
mismatch raises `ValueError` with the fixed message. -/
def validate_sides (input_side output_side : String) : Except Err Unit :=
  match opposites input_side with
  | none => Except.error (Err.keyError input_side)
  | some o =>
      if o ≠ output_side then
        Except.error (Err.valueError
          "Output side must be opposite the input side for the furnace line layout.")
      else Except.ok ()

/-- `apply_rotation`: rotate each entity's position and (always-present)
direction; `entity_number`, when present, is copied unchanged. -/
def apply_rotation (entities : List Entity) (rotation_steps : ℤ) :
    List Entity :=
  entities.map (fun e =>
    let p := rotate_point e.x e.y rotation_steps
    { e with x := p.1, y := p.2,
             direction := rotate_direction e.direction rotation_steps })

/-- Helper for `enumerate(entities, start=1)`. -/
def attach_from (start : ℤ) : List Entity → List Entity
  | [] => []
  | e :: rest => { e with entity_number := some start } :: attach_from (start + 1) rest

/-- `attach_entity_numbers`: assign `entity_number = 1, 2, ...` in list order. -/
def attach_entity_numbers (entities : List Entity) : List Entity :=
  attach_from 1 entities

/-- The blueprint document.  The fixed fields `item = "blueprint"` and
`version = 0` are emitted by the JSON view below; the varying fields are
recorded here exactly as the source assembles its result dict. -/
structure BlueprintDoc where
  label : String
  entities : List Entity
  icon_item : String
  meta_input_side : String
  meta_output_side : String
  meta_belt : String
  furnace_count : ℤ
deriving DecidableEq, Repr

/-- The canonical (north-input) entity list assembled inside
`generate_furnace_blueprint`, in the source's concatenation order:
furnaces, input belts (y=-3), output belts (y=+3), input inserters (y=-2),
output inserters (y=+2), coal merge. -/
def canonical_entities (count : ℤ) (furnace belt : String) : List Entity :=
  build_furnace_entities count ((direction_to_int "north").getD 0) furnace ++
  build_belt_entities count belt (-3) ((direction_to_int "east").getD 0) ++
  build_belt_entities count belt 3 ((direction_to_int "east").getD 0) ++
  build_inserter_entities count ((direction_to_int "south").getD 0) (-2) ++
  build_inserter_entities count ((direction_to_int "south").getD 0) 2 ++
  build_coal_merge_entities belt

/-- `generate_furnace_blueprint`: count first (may raise on unknown
furnace/belt), then side validation, then rotation, assembly, numbering. -/
def generate_furnace_blueprint (config : FurnaceLineConfig) :
    Except Err BlueprintDoc := do
  let count ← calculate_furnace_count config
  let _ ← validate_sides config.input_side config.output_side
  let rotation_steps ← rotation_steps_for_input config.input_side
  let entities := canonical_entities count config.furnace config.belt
  let entities := apply_rotation entities rotation_steps
  let entities := attach_entity_numbers entities
  Except.ok
    { label := config.blueprint_label
      entities := entities
      icon_item := config.furnace
      meta_input_side := config.input_side
      meta_output_side := config.output_side
      meta_belt := config.belt
      furnace_count := count }

/-! ### JSON model and exchange-format encoder

`json.dumps(..., separators=(",", ":"))` emits keys in dict insertion order
with no whitespace, ASCII-escaped strings (default `ensure_ascii=True`), and
`repr`-formatted floats.  `zlib.compress` is an external library call and is
abstracted as a function parameter below. -/

/-- JSON values as produced by the program.  `jfloat` carries a rational that
is integer-valued on every reachable document (all coordinates are integers),
and is rendered the way `repr` renders an integer-valued Python float. -/
inductive Json where
  | str (s : String)
  | int (n : ℤ)
  | jfloat (q : ℚ)
  | arr (items : List Json)
  | obj (fields : List (String × Json))

/-- Lowercase hexadecimal digit. -/
def hexDigit (n : ℕ) : Char :=
  if n < 10 then Char.ofNat (48 + n) else Char.ofNat (87 + n)

/-- `\uXXXX` escape for a code unit. -/
def u4 (n : ℕ) : List Char :=
  ['\\', 'u', hexDigit (n / 4096 % 16), hexDigit (n / 256 % 16),
   hexDigit (n / 16 % 16), hexDigit (n % 16)]

/-- One character of `json.dumps` ASCII output: the two-character escapes
for backslash, quote, and the five control shorthands; printable ASCII
verbatim; everything else as `\uXXXX` (surrogate pairs above U+FFFF). -/
def pyEscapeChar (c : Char) : List Char :=
  if c = '\\' then ['\\', '\\']
  else if c = '"' then ['\\', '"']
  else if c = Char.ofNat 8 then ['\\', 'b']
  else if c = Char.ofNat 12 then ['\\', 'f']
  else if c = '\n' then ['\\', 'n']
  else if c = Char.ofNat 13 then ['\\', 'r']
  else if c = '\t' then ['\\', 't']
  else if 32 ≤ c.toNat ∧ c.toNat ≤ 126 then [c]
  else if c.toNat < 65536 then u4 c.toNat
  else u4 (55296 + (c.toNat - 65536) / 1024) ++ u4 (56320 + (c.toNat - 65536) % 1024)

/-- String escaping for `json.dumps` with `ensure_ascii=True`. -/
def pyEscape (s : String) : String :=
  String.mk ((s.data.map pyEscapeChar).flatten)

/-- `repr` of an integer-valued Python float: `"2.0"`, `"-1.0"`, ... -/
def floatRepr (q : ℚ) : String :=
  if q.den = 1 then toString q.num ++ ".0" else toString q

mutual

/-- Canonical serialization: `json.dumps(v, separators=(",", ":"))`. -/
def Json.dumps : Json → String
  | .str s => "\"" ++ pyEscape s ++ "\""
  | .int n => toString n
  | .jfloat q => floatRepr q
  | .arr items => "[" ++ Json.dumpsList items ++ "]"
  | .obj fields => "\x7b" ++ Json.dumpsObj fields ++ "\x7d"

/-- Comma-separated serialization of array elements. -/
def Json.dumpsList : List Json → String
  | [] => ""
  | [j] => Json.dumps j
  | j :: rest => Json.dumps j ++ "," ++ Json.dumpsList rest

/-- Comma-separated serialization of object fields, insertion order. -/
def Json.dumpsObj : List (String × Json) → String
  | [] => ""
  | [(k, v)] => "\"" ++ pyEscape k ++ "\":" ++ Json.dumps v
  | (k, v) :: rest => "\"" ++ pyEscape k ++ "\":" ++ Json.dumps v ++ "," ++ Json.dumpsObj rest

end

/-- UTF-8 encoding of the serialized JSON.  `pyEscape` keeps every output
character in the ASCII range, where UTF-8 is the identity on code points. -/
def strBytes (s : String) : List ℕ :=
  s.data.map Char.toNat

/-- The standard base64 alphabet. -/
def B64_ALPHABET : List Char :=
  "ABCDEFGHIJKLMNOPQRSTUVWXYZabcdefghijklmnopqrstuvwxyz0123456789+/".data

/-- Character for a 6-bit group. -/
def b64Char (n : ℕ) : Char := B64_ALPHABET.getD n '?'

/-- Position of a character in the base64 alphabet. -/
def b64IndexAux : List Char → ℕ → Char → Option ℕ
  | [], _, _ => none
  | a :: rest, i, c => if a = c then some i else b64IndexAux rest (i + 1) c

/-- Inverse of `b64Char` on alphabet characters. -/
def b64Index (c : Char) : Option ℕ := b64IndexAux B64_ALPHABET 0 c

/-- `base64.b64encode`: standard alphabet, `=`-padded. -/
def b64EncodeChars : List ℕ → List Char
  | [] => []
  | [a] => [b64Char (a / 4), b64Char (a % 4 * 16), '=', '=']
  | [a, b] => [b64Char (a / 4), b64Char (a % 4 * 16 + b / 16), b64Char (b % 16 * 4), '=']
  | a :: b :: c :: rest =>
      b64Char (a / 4) :: b64Char (a % 4 * 16 + b / 16) ::
      b64Char (b % 16 * 4 + c / 64) :: b64Char (c % 64) :: b64EncodeChars rest

/-- Base64 decoding (the reverse step a consumer performs). -/
def b64DecodeChars : List Char → Option (List ℕ)
  | [] => some []
  | c1 :: c2 :: c3 :: c4 :: rest =>
      match b64Index c1, b64Index c2 with
      | some x, some y =>
          if c3 = '=' then
            if c4 = '=' ∧ rest = [] then some [x * 4 + y / 16] else none
          else
            match b64Index c3 with
            | some z =>
                if c4 = '=' then
                  if rest = [] then some [x * 4 + y / 16, y % 16 * 16 + z / 4] else none
                else
                  match b64Index c4, b64DecodeChars rest with
                  | some w, some tail =>
                      some ((x * 4 + y / 16) :: (y % 16 * 16 + z / 4) ::
                            (z % 4 * 64 + w) :: tail)
                  | _, _ => none
            | none => none
      | _, _ => none
  | _ => none

/-- JSON view of one entity dict: key insertion order `name`, `position`,
`direction`, then `entity_number` when it has been attached. -/
def entityJson (e : Entity) : Json :=
  Json.obj
    ([("name", Json.str e.name),
      ("position", Json.obj [("x", Json.jfloat e.x), ("y", Json.jfloat e.y)]),
      ("direction", Json.int e.direction)] ++
     (match e.entity_number with
      | some n => [("entity_number", Json.int n)]
      | none => []))

/-- JSON view of the result dict of `generate_furnace_blueprint`, in the
source's key order, with the fixed `item` and `version` fields. -/
def docJson (doc : BlueprintDoc) : Json :=
  Json.obj
    [("blueprint", Json.obj
      [("label", Json.str doc.label),
       ("item", Json.str "blueprint"),
       ("version", Json.int 0),
       ("entities", Json.arr (doc.entities.map entityJson)),
       ("icons", Json.arr
         [Json.obj
           [("signal", Json.obj
             [("type", Json.str "item"), ("name", Json.str doc.icon_item)]),
            ("index", Json.int 1)]]),
       ("metadata", Json.obj
         [("input_side", Json.str doc.meta_input_side),
          ("output_side", Json.str doc.meta_output_side),
          ("belt", Json.str doc.meta_belt),
          ("furnace_count", Json.int doc.furnace_count)])])]

/-- `encode_blueprint`: canonical JSON, deflate (the external `zlib.compress`
is a parameter), padded base64, then the `"0"` version prefix. -/
def encode_blueprint (deflate : List ℕ → List ℕ) (blueprint : Json) : String :=
  "0" ++ String.mk (b64EncodeChars (deflate (strBytes (Json.dumps blueprint))))

/-- Modelled from the spec: the consumer-side round-trip decoder (no
decoder exists in the source).  It reverses the four steps in order: strip
the version character, base64-decode, inflate, parse JSON; `inflate` and
`parse` abstract the external decompressor and JSON parser. -/
def decode_blueprint (inflate : List ℕ → Option (List ℕ))
    (parse : List ℕ → Option Json) (s : String) : Option Json :=
  match s.data with
  | [] => none
  | v :: rest =>
      if v = '0' then do
        let compressed ← b64DecodeChars rest
        let raw ← inflate compressed
        parse raw
      else none

/-! ### Spec-side definitions and concrete instances used by the theorems -/

/-- Spec wording: rounding to the nearest integer with ties away from zero. -/
def round_half_away_from_zero (q : ℚ) : ℤ :=
  if 0 ≤ q then ⌊q + 1 / 2⌋ else -⌊-q + 1 / 2⌋

/-- Spec wording: the four geometrically opposite side pairs. -/
def opposite_sides (i o : String) : Prop :=
  (i = "north" ∧ o = "south") ∨ (i = "south" ∧ o = "north") ∨
  (i = "east" ∧ o = "west") ∨ (i = "west" ∧ o = "east")

instance (i o : String) : Decidable (opposite_sides i o) := by
  unfold opposite_sides; infer_instance

instance {ε α : Type} [DecidableEq ε] [DecidableEq α] : DecidableEq (Except ε α)
  | .ok a, .ok b =>
      if h : a = b then .isTrue (by rw [h])
      else .isFalse (fun hc => h (Except.ok.inj hc))
  | .ok _, .error _ => .isFalse (fun hc => Except.noConfusion hc)
  | .error _, .ok _ => .isFalse (fun hc => Except.noConfusion hc)
  | .error e, .error e2 =>
      if h : e = e2 then .isTrue (by rw [h])
      else .isFalse (fun hc => h (Except.error.inj hc))

/-- Does a generation result carry a `ValueError` (validation error)? -/
def is_validation_error : Except Err BlueprintDoc → Bool
  | .error (.valueError _) => true
  | _ => false

/-- Entity count of a generation result. -/
def entity_count_of (r : Except Err BlueprintDoc) : Option ℕ :=
  r.toOption.map (fun d => d.entities.length)

/-- Fallback document for extracting concrete generation results. -/
def emptyDoc : BlueprintDoc :=
  { label := "", entities := [], icon_item := "", meta_input_side := "",
    meta_output_side := "", meta_belt := "", furnace_count := 0 }

/-- Concrete config with explicit `length=5` (C1 scenario). -/
def cfg5 : FurnaceLineConfig := { length := some 5 }

/-- The document generated from `cfg5`. -/
def doc5 : BlueprintDoc := (generate_furnace_blueprint cfg5).toOption.getD emptyDoc

/-- Config with an unknown belt name and non-opposite sides (C2 scenario). -/
def cfg_bad : FurnaceLineConfig :=
  { belt := "hyper-belt", input_side := "north", output_side := "east" }

/-- Small valid config used for the encoding round-trip witness. -/
def cfg0 : FurnaceLineConfig := { length := some 1 }

/-- The document generated from `cfg0`. -/
def doc0 : BlueprintDoc := (generate_furnace_blueprint cfg0).toOption.getD emptyDoc

/-- Canonical JSON bytes of `doc0`. -/
def bytes0 : List ℕ := strBytes (Json.dumps (docJson doc0))

/-- A parser that inverts the canonical serialization at `doc0`. -/
def parse0 : List ℕ → Option Json :=
  fun bs => if bs = bytes0 then some (docJson doc0) else none

/-- A (degenerate) compressor used to instantiate the round-trip theorem. -/
def deflate0 : List ℕ → List ℕ := fun _ => []

/-- The matching decompressor: restores the canonical bytes of `doc0`. -/
def inflate0 : List ℕ → Option (List ℕ) := fun _ => some bytes0

/-- North-input config with explicit length 1 (C8 witness). -/
def cfgN0 : FurnaceLineConfig := { length := some 1 }

/-- East-input config with explicit length 1 (C8 witness). -/
def cfgE0 : FurnaceLineConfig :=
  { length := some 1, input_side := "east", output_side := "west" }

/-- Document generated from `cfgN0`. -/
def docN0 : BlueprintDoc := (generate_furnace_blueprint cfgN0).toOption.getD emptyDoc

/-- Document generated from `cfgE0`. -/
def docE0 : BlueprintDoc := (generate_furnace_blueprint cfgE0).toOption.getD emptyDoc

/-- Boolean check that every entity name in a document comes from the
configured furnace name, belt name, or the fixed "inserter". -/
def names_from (f b : String) (doc : BlueprintDoc) : Bool :=
  doc.entities.all (fun e => e.name == f || e.name == b || e.name == "inserter")

/-- Config with unsupported furnace/belt names but an explicit length
(C10 witness). -/
def cfgW : FurnaceLineConfig :=
  { furnace := "plasma-furnace", belt := "warp-belt", length := some 2,
    input_side := "east", output_side := "west", blueprint_label := "X" }

/-- Document generated from `cfgW`. -/
def docW : BlueprintDoc := (generate_furnace_blueprint cfgW).toOption.getD emptyDoc

/-! ### Helper lemmas -/

theorem clamp_length_bounds (v : ℤ) : 1 ≤ clamp_length v ∧ clamp_length v ≤ 200 := by
  unfold clamp_length
  omega

theorem fpb_eval {f b : String} {rb rf : ℚ}
    (hb : BELT_THROUGHPUT_ITEMS_PER_SEC b = some rb)
    (hf : FURNACE_SPEED f = some rf) :
    furnaces_per_full_belt f b = .ok (rb / (rf / SMELTING_TIME_SECONDS)) := by
  unfold furnaces_per_full_belt
  rw [hb, hf]
  rfl

theorem pythonRound_int (n : ℤ) : pythonRound (n : ℚ) = n := by
  unfold pythonRound
  rw [Int.floor_intCast]
  norm_num

theorem calculate_eval {config : FurnaceLineConfig} {q : ℚ}
    (hlen : config.length = none)
    (hq : furnaces_per_full_belt config.furnace config.belt = .ok q) :
    calculate_furnace_count config = .ok (clamp_length (pythonRound q)) := by
  unfold calculate_furnace_count
  rw [hlen, hq]
  rfl

theorem fpb_stone_transport :
    furnaces_per_full_belt "stone-furnace" "transport-belt" = .ok 48 := by
  have hb : BELT_THROUGHPUT_ITEMS_PER_SEC "transport-belt" = some 15 := rfl
  have hf : FURNACE_SPEED "stone-furnace" = some 1 := rfl
  rw [fpb_eval hb hf]
  norm_num [SMELTING_TIME_SECONDS]

theorem calculate_default :
    calculate_furnace_count {} = .ok 48 := by
  rw [calculate_eval rfl fpb_stone_transport]
  have h48 : pythonRound 48 = 48 := by
    have hc : ((48 : ℤ) : ℚ) = (48 : ℚ) := by norm_num
    rw [← hc, pythonRound_int]
  rw [h48]
  decide

theorem calculate_ok_bounds {config : FurnaceLineConfig} {n : ℤ}
    (h : calculate_furnace_count config = .ok n) : 1 ≤ n ∧ n ≤ 200 := by
  unfold calculate_furnace_count at h
  cases hl : config.length with
  | some l =>
      rw [hl] at h
      cases h
      exact clamp_length_bounds l
  | none =>
      rw [hl] at h
      cases hfb : furnaces_per_full_belt config.furnace config.belt with
      | ok q =>
          rw [hfb] at h
          cases h
          exact clamp_length_bounds _
      | error e =>
          rw [hfb] at h
          cases h

/-- The document assembled by a successful generation run. -/
def assembled_doc (config : FurnaceLineConfig) (count steps : ℤ) : BlueprintDoc :=
  { label := config.blueprint_label
    entities := attach_entity_numbers (apply_rotation
      (canonical_entities count config.furnace config.belt) steps)
    icon_item := config.furnace
    meta_input_side := config.input_side
    meta_output_side := config.output_side
    meta_belt := config.belt
    furnace_count := count }

theorem ok_bind {α β : Type} (a : α) (f : α → Except Err β) :
    (Except.ok a >>= f) = f a := rfl

theorem error_bind {α β : Type} (e : Err) (f : α → Except Err β) :
    ((Except.error e : Except Err α) >>= f) = Except.error e := rfl

theorem generate_ok_iff {config : FurnaceLineConfig} {doc : BlueprintDoc} :
    generate_furnace_blueprint config = .ok doc ↔
    ∃ count steps,
      calculate_furnace_count config = .ok count ∧
      validate_sides config.input_side config.output_side = .ok () ∧
      rotation_steps_for_input config.input_side = .ok steps ∧
      doc = assembled_doc config count steps := by
  constructor
  · intro h
    unfold generate_furnace_blueprint at h
    cases h1 : calculate_furnace_count config with
    | error e => rw [h1, error_bind] at h; exact Except.noConfusion h
    | ok count =>
      simp only [h1, ok_bind] at h
      cases h2 : validate_sides config.input_side config.output_side with
      | error e => rw [h2, error_bind] at h; exact Except.noConfusion h
      | ok u =>
        cases u
        simp only [h2, ok_bind] at h
        cases h3 : rotation_steps_for_input config.input_side with
        | error e => rw [h3, error_bind] at h; exact Except.noConfusion h
        | ok steps =>
          simp only [h3, ok_bind] at h
          cases h
          exact ⟨count, steps, rfl, rfl, rfl, rfl⟩
  · rintro ⟨count, steps, hc, hv, hr, hd⟩
    subst hd
    unfold generate_furnace_blueprint
    simp only [hc, ok_bind, hv, hr]
    rfl

theorem attach_from_length (start : ℤ) (l : List Entity) :
    (attach_from start l).length = l.length := by
  induction l generalizing start with
  | nil => rfl
  | cons e rest ih => simp [attach_from, ih]

theorem attach_entity_numbers_length (l : List Entity) :
    (attach_entity_numbers l).length = l.length :=
  attach_from_length 1 l

theorem apply_rotation_length (l : List Entity) (r : ℤ) :
    (apply_rotation l r).length = l.length := by
  simp [apply_rotation]

theorem attach_from_numbers (start : ℤ) (l : List Entity) :
    (attach_from start l).map Entity.entity_number =
      (List.range l.length).map (fun i : ℕ => some (start + (i : ℤ))) := by
  induction l generalizing start with
  | nil => rfl
  | cons e rest ih =>
      rw [attach_from, List.map_cons, ih, List.length_cons,
        List.range_succ_eq_map, List.map_cons, List.map_map]
      congr 1
      · simp
      · apply List.map_congr_left
        intro i _
        simp only [Function.comp_apply, Nat.succ_eq_add_one, Option.some.injEq]
        push_cast
        ring

theorem attach_entity_numbers_numbers (l : List Entity) :
    (attach_entity_numbers l).map Entity.entity_number =
      (List.range l.length).map (fun i : ℕ => some ((i : ℤ) + 1)) := by
  rw [attach_entity_numbers, attach_from_numbers]
  apply List.map_congr_left
  intro i _
  rw [add_comm]

theorem canonical_entities_length {count : ℤ} (h : 0 ≤ count) (furnace belt : String) :
    (canonical_entities count furnace belt).length = 7 * count.toNat + 3 := by
  simp only [canonical_entities, List.length_append, build_furnace_entities,
    build_belt_entities, build_inserter_entities, build_coal_merge_entities,
    iter_furnace_positions, iter_belt_positions, List.length_map,
    List.length_range, List.length_cons, List.length_nil]
  omega

/-! ### C1 -/

/-- C1 counterexample: the claim says the document for explicit `length=5`
has `6*count + 3 = 33` entities; the code produces `count` furnaces,
`2*count` belts per belt row (two rows), `count` inserters per inserter row
(two rows) and 3 coal-merge belts, i.e. `7*count + 3 = 38` entities. -/
theorem c1_counterexample :
    entity_count_of (generate_furnace_blueprint cfg5) = some 38 ∧
    entity_count_of (generate_furnace_blueprint cfg5) ≠ some 33 := by
  constructor
  · rfl
  · decide

/-- C1 (amended): for every configuration on which generation succeeds, the
document contains exactly `7*count + 3` entities where `count` is the
resolved furnace count (so explicit `length=5` gives 38 entities), and the
`entity_number` fields are exactly the contiguous range `1..entity_count`
in list order, with no gaps or duplicates. -/
theorem c1_entity_count_and_numbering (config : FurnaceLineConfig)
    (doc : BlueprintDoc) (h : generate_furnace_blueprint config = .ok doc) :
    calculate_furnace_count config = .ok doc.furnace_count ∧
    (doc.entities.length : ℤ) = 7 * doc.furnace_count + 3 ∧
    (config.length = some 5 → doc.entities.length = 38) ∧
    doc.entities.map Entity.entity_number =
      (List.range doc.entities.length).map (fun i : ℕ => some ((i : ℤ) + 1)) := by
  obtain ⟨count, steps, hc, hv, hr, hd⟩ := generate_ok_iff.mp h
  subst hd
  have hb := calculate_ok_bounds hc
  simp only [assembled_doc]
  have hlen : (attach_entity_numbers (apply_rotation
      (canonical_entities count config.furnace config.belt) steps)).length =
      7 * count.toNat + 3 := by
    rw [attach_entity_numbers_length, apply_rotation_length,
      canonical_entities_length (by omega)]
  refine ⟨hc, ?_, ?_, ?_⟩
  · rw [hlen]; push_cast; omega
  · intro h5
    unfold calculate_furnace_count at hc
    rw [h5] at hc
    cases hc
    rw [hlen]
    rfl
  · rw [attach_entity_numbers_length]
    exact attach_entity_numbers_numbers _

/-- C1 witness: the amended theorem applied to the `length=5` scenario. -/
theorem c1_witness :
    calculate_furnace_count cfg5 = .ok doc5.furnace_count ∧
    (doc5.entities.length : ℤ) = 7 * doc5.furnace_count + 3 ∧
    doc5.entities.length = 38 ∧
    doc5.entities.map Entity.entity_number =
      (List.range doc5.entities.length).map (fun i : ℕ => some ((i : ℤ) + 1)) := by
  obtain ⟨h1, h2, h3, h4⟩ := c1_entity_count_and_numbering cfg5 doc5 (by rfl)
  exact ⟨h1, h2, h3 rfl, h4⟩

/-! ### C3 -/

/-- C3: with an explicit length `L`, `calculate_furnace_count` returns
`clamp(L, 1, 200)` for arbitrary furnace and belt strings (even unsupported
ones), so the throughput tables are not consulted on this path. -/
theorem c3_explicit_length_clamps (L : ℤ) (f b i o lbl : String) :
    calculate_furnace_count
      { furnace := f, belt := b, length := some L, input_side := i,
        output_side := o, blueprint_label := lbl } = .ok (clamp_length L) ∧
    clamp_length L = max 1 (min L 200) := ⟨rfl, rfl⟩

/-! ### C5 -/

/-- C5: `rotate_point` normalizes `steps` modulo 4 and returns the exact
sign/swap image for each residue; rotating by any multiple of 4 steps is
the identity, with no drift (the coordinates are exact rationals). -/
theorem c5_rotate_point_cases (x y : ℚ) (steps : ℤ) :
    rotate_point x y steps =
      (if steps % 4 = 0 then (x, y)
       else if steps % 4 = 1 then (y, -x)
       else if steps % 4 = 2 then (-x, -y)
       else (-y, x)) ∧
    (∀ k : ℤ, rotate_point x y (4 * k) = (x, y)) := by
  refine ⟨rfl, fun k => ?_⟩
  have h : (4 * k) % 4 = 0 := Int.mul_emod_right 4 k
  simp [rotate_point, h]

/-! ### C6 -/

/-- C6: `rotate_direction` is `(direction + steps*2) mod 8`; on the valid
direction range `[0, 7]`, rotating by 4 steps is the identity, and rotating
by 1 step four times in succession passes through 4 pairwise distinct
values and returns to the start. -/
theorem c6_rotate_direction :
    (∀ d s : ℤ, rotate_direction d s = (d + s * 2) % 8) ∧
    (∀ d : ℤ, 0 ≤ d → d < 8 →
      rotate_direction d 4 = d ∧
      rotate_direction (rotate_direction (rotate_direction
        (rotate_direction d 1) 1) 1) 1 = d ∧
      [d, rotate_direction d 1,
       rotate_direction (rotate_direction d 1) 1,
       rotate_direction (rotate_direction (rotate_direction d 1) 1) 1].Nodup) := by
  refine ⟨fun d s => rfl, fun d h0 h8 => ?_⟩
  interval_cases d <;> refine ⟨by decide, by decide, by decide⟩

/-- C6 witness: the bounded part of the theorem instantiated at direction 2. -/
theorem c6_witness :
    rotate_direction 2 4 = 2 ∧
    rotate_direction (rotate_direction (rotate_direction
      (rotate_direction 2 1) 1) 1) 1 = 2 ∧
    [(2 : ℤ), rotate_direction 2 1,
     rotate_direction (rotate_direction 2 1) 1,
     rotate_direction (rotate_direction (rotate_direction 2 1) 1) 1].Nodup :=
  c6_rotate_direction.2 2 (by decide) (by decide)

/-! ### C9 -/

theorem belt_lookup_pos {b : String} {r : ℚ}
    (h : BELT_THROUGHPUT_ITEMS_PER_SEC b = some r) : 0 < r := by
  unfold BELT_THROUGHPUT_ITEMS_PER_SEC at h
  split_ifs at h <;> cases h <;> norm_num

theorem furnace_lookup_pos {f : String} {s : ℚ}
    (h : FURNACE_SPEED f = some s) : 0 < s := by
  unfold FURNACE_SPEED at h
  split_ifs at h <;> cases h <;> norm_num

theorem furnaces_per_full_belt_pos {f b : String} {q : ℚ}
    (h : furnaces_per_full_belt f b = .ok q) : 0 < q := by
  unfold furnaces_per_full_belt at h
  cases hB : BELT_THROUGHPUT_ITEMS_PER_SEC b with
  | none => rw [hB] at h; exact Except.noConfusion h
  | some r =>
      rw [hB] at h
      cases hF : FURNACE_SPEED f with
      | none => rw [hF] at h; exact Except.noConfusion h
      | some s =>
          rw [hF] at h
          cases h
          have hr := belt_lookup_pos hB
          have hs := furnace_lookup_pos hF
          have hsm : (0 : ℚ) < SMELTING_TIME_SECONDS := by norm_num [SMELTING_TIME_SECONDS]
          exact div_pos hr (div_pos hs hsm)

/-- C9: for every supported furnace/belt pair the computed
furnaces-per-belt value is strictly positive, `calculate_furnace_count`
always returns a value in `[1, 200]` when it succeeds, and the furnace
count recorded in every successfully produced document lies in `[1, 200]`. -/
theorem c9_count_invariants :
    (∀ f b q, furnaces_per_full_belt f b = .ok q → 0 < q) ∧
    (∀ config n, calculate_furnace_count config = .ok n → 1 ≤ n ∧ n ≤ 200) ∧
    (∀ config doc, generate_furnace_blueprint config = .ok doc →
      1 ≤ doc.furnace_count ∧ doc.furnace_count ≤ 200) := by
  refine ⟨fun f b q h => furnaces_per_full_belt_pos h,
          fun config n h => calculate_ok_bounds h,
          fun config doc h => ?_⟩
  obtain ⟨count, steps, hc, -, -, hd⟩ := generate_ok_iff.mp h
  subst hd
  exact calculate_ok_bounds hc

/-- C9 witness: the three invariants instantiated on the default
configuration (stone furnace, transport belt). -/
theorem c9_witness :
    (0 : ℚ) < 48 ∧ (1 ≤ (48 : ℤ) ∧ (48 : ℤ) ≤ 200) ∧
    (1 ≤ doc0.furnace_count ∧ doc0.furnace_count ≤ 200) :=
  ⟨c9_count_invariants.1 "stone-furnace" "transport-belt" 48 fpb_stone_transport,
   c9_count_invariants.2.1 {} 48 calculate_default,
   c9_count_invariants.2.2 cfg0 doc0 (by rfl)⟩

/-! ### C2 -/

/-- C2 counterexample: with an unknown belt name, no explicit length, and
non-opposite sides, `generate_furnace_blueprint` fails with the *lookup*
error from the sizing calculator (which runs before validation), not with a
validation error as the claim states. -/
theorem c2_counterexample :
    generate_furnace_blueprint cfg_bad = .error (Err.keyError "hyper-belt") ∧
    is_validation_error (generate_furnace_blueprint cfg_bad) = false :=
  ⟨rfl, rfl⟩

/-- C2 (amended): for every configuration whose sides are drawn from
{north, east, south, west} and are not geometrically opposite, *and whose
furnace-count resolution succeeds* (explicit length, or supported furnace
and belt names), generation fails with the validation `ValueError` carrying
the opposite-sides message, producing no document.  (When the count
resolution itself fails, the lookup error is raised first instead.) -/
theorem c2_validation_error (config : FurnaceLineConfig) (n : ℤ)
    (hin : config.input_side = "north" ∨ config.input_side = "east" ∨
           config.input_side = "south" ∨ config.input_side = "west")
    (hout : config.output_side = "north" ∨ config.output_side = "east" ∨
            config.output_side = "south" ∨ config.output_side = "west")
    (hnotopp : ¬ opposite_sides config.input_side config.output_side)
    (hcount : calculate_furnace_count config = .ok n) :
    generate_furnace_blueprint config = .error (Err.valueError
      "Output side must be opposite the input side for the furnace line layout.") := by
  unfold generate_furnace_blueprint
  simp only [hcount, ok_bind]
  have hv : validate_sides config.input_side config.output_side =
      .error (Err.valueError
        "Output side must be opposite the input side for the furnace line layout.") := by
    rcases hin with hi | hi | hi | hi <;>
      rw [hi] at hnotopp ⊢ <;>
      unfold opposite_sides at hnotopp <;>
      push_neg at hnotopp <;>
      unfold validate_sides
    · rw [show opposites "north" = some "south" from rfl]
      show (if "south" ≠ config.output_side then Except.error (Err.valueError
        "Output side must be opposite the input side for the furnace line layout.")
        else Except.ok ()) = _
      rw [if_pos (Ne.symm (hnotopp.1 rfl))]
    · rw [show opposites "east" = some "west" from rfl]
      show (if "west" ≠ config.output_side then Except.error (Err.valueError
        "Output side must be opposite the input side for the furnace line layout.")
        else Except.ok ()) = _
      rw [if_pos (Ne.symm (hnotopp.2.2.1 rfl))]
    · rw [show opposites "south" = some "north" from rfl]
      show (if "north" ≠ config.output_side then Except.error (Err.valueError
        "Output side must be opposite the input side for the furnace line layout.")
        else Except.ok ()) = _
      rw [if_pos (Ne.symm (hnotopp.2.1 rfl))]
    · rw [show opposites "west" = some "east" from rfl]
      show (if "east" ≠ config.output_side then Except.error (Err.valueError
        "Output side must be opposite the input side for the furnace line layout.")
        else Except.ok ()) = _
      rw [if_pos (Ne.symm (hnotopp.2.2.2 rfl))]
  rw [hv, error_bind]

/-- C2 witness: the amended theorem at a concrete configuration with
explicit length 3 and sides north/east. -/
theorem c2_witness :
    generate_furnace_blueprint
      { length := some 3, input_side := "north", output_side := "east" } =
      .error (Err.valueError
        "Output side must be opposite the input side for the furnace line layout.") :=
  c2_validation_error
    { length := some 3, input_side := "north", output_side := "east" } 3
    (by decide) (by decide) (by decide) rfl

/-! ### C4 -/

theorem belt_lookup_cases {b : String} {cap : ℚ}
    (h : BELT_THROUGHPUT_ITEMS_PER_SEC b = some cap) :
    (b = "transport-belt" ∧ cap = 15) ∨ (b = "fast-transport-belt" ∧ cap = 30) ∨
    (b = "express-transport-belt" ∧ cap = 45) := by
  unfold BELT_THROUGHPUT_ITEMS_PER_SEC at h
  split_ifs at h with h1 h2 h3
  · exact Or.inl ⟨h1, (Option.some.inj h).symm⟩
  · exact Or.inr (Or.inl ⟨h2, (Option.some.inj h).symm⟩)
  · exact Or.inr (Or.inr ⟨h3, (Option.some.inj h).symm⟩)

theorem furnace_lookup_cases {f : String} {spd : ℚ}
    (h : FURNACE_SPEED f = some spd) :
    (f = "stone-furnace" ∧ spd = 1) ∨ (f = "steel-furnace" ∧ spd = 2) ∨
    (f = "electric-furnace" ∧ spd = 2) := by
  unfold FURNACE_SPEED at h
  split_ifs at h with h1 h2 h3
  · exact Or.inl ⟨h1, (Option.some.inj h).symm⟩
  · exact Or.inr (Or.inl ⟨h2, (Option.some.inj h).symm⟩)
  · exact Or.inr (Or.inr ⟨h3, (Option.some.inj h).symm⟩)

theorem floor_half : ⌊(1 / 2 : ℚ)⌋ = 0 := by
  rw [Int.floor_eq_zero_iff]
  constructor <;> norm_num

theorem rhafz_int (n : ℤ) : round_half_away_from_zero (n : ℚ) = n := by
  unfold round_half_away_from_zero
  split_ifs with h0
  · rw [Int.floor_int_add, floor_half, add_zero]
  · have : (-(n : ℚ)) = ((-n : ℤ) : ℚ) := by push_cast; ring
    rw [this, Int.floor_int_add, floor_half, add_zero, neg_neg]

theorem pythonRound_eq_rhafz_of_int (q : ℚ) (n : ℤ) (h : q = (n : ℚ)) :
    pythonRound q = round_half_away_from_zero q := by
  subst h
  rw [pythonRound_int, rhafz_int]

/-- C4: with no explicit length, `calculate_furnace_count` returns the belt
capacity divided by the furnace throughput (speed / 3.2), rounded to the
nearest integer with ties away from zero, clamped to [1, 200]; on every
supported pair the quotient is an exact integer, so Python's half-to-even
`round` and the spec's ties-away rounding agree.  For stone furnace and
transport belt the result is exactly 48. -/
theorem c4_computed_count (config : FurnaceLineConfig) (cap spd : ℚ)
    (hlen : config.length = none)
    (hb : BELT_THROUGHPUT_ITEMS_PER_SEC config.belt = some cap)
    (hf : FURNACE_SPEED config.furnace = some spd) :
    calculate_furnace_count config =
      .ok (clamp_length (round_half_away_from_zero
        (cap / (spd / SMELTING_TIME_SECONDS)))) ∧
    (config.furnace = "stone-furnace" → config.belt = "transport-belt" →
      calculate_furnace_count config = .ok 48) := by
  have key : pythonRound (cap / (spd / SMELTING_TIME_SECONDS)) =
      round_half_away_from_zero (cap / (spd / SMELTING_TIME_SECONDS)) := by
    rcases belt_lookup_cases hb with ⟨hb1, rfl⟩ | ⟨hb1, rfl⟩ | ⟨hb1, rfl⟩ <;>
      rcases furnace_lookup_cases hf with ⟨hf1, rfl⟩ | ⟨hf1, rfl⟩ | ⟨hf1, rfl⟩
    · exact pythonRound_eq_rhafz_of_int _ 48 (by norm_num [SMELTING_TIME_SECONDS])
    · exact pythonRound_eq_rhafz_of_int _ 24 (by norm_num [SMELTING_TIME_SECONDS])
    · exact pythonRound_eq_rhafz_of_int _ 24 (by norm_num [SMELTING_TIME_SECONDS])
    · exact pythonRound_eq_rhafz_of_int _ 96 (by norm_num [SMELTING_TIME_SECONDS])
    · exact pythonRound_eq_rhafz_of_int _ 48 (by norm_num [SMELTING_TIME_SECONDS])
    · exact pythonRound_eq_rhafz_of_int _ 48 (by norm_num [SMELTING_TIME_SECONDS])
    · exact pythonRound_eq_rhafz_of_int _ 144 (by norm_num [SMELTING_TIME_SECONDS])
    · exact pythonRound_eq_rhafz_of_int _ 72 (by norm_num [SMELTING_TIME_SECONDS])
    · exact pythonRound_eq_rhafz_of_int _ 72 (by norm_num [SMELTING_TIME_SECONDS])
  constructor
  · rw [calculate_eval hlen (fpb_eval hb hf), key]
  · intro hfs hbs
    have hb2 := hb
    have hf2 := hf
    rw [hbs] at hb2
    rw [hfs] at hf2
    have hcap : cap = 15 := by
      have h15 : BELT_THROUGHPUT_ITEMS_PER_SEC "transport-belt" = some (15 : ℚ) := rfl
      rw [h15] at hb2
      exact (Option.some.inj hb2).symm
    have hspd : spd = 1 := by
      have h1 : FURNACE_SPEED "stone-furnace" = some (1 : ℚ) := rfl
      rw [h1] at hf2
      exact (Option.some.inj hf2).symm
    subst hcap
    subst hspd
    rw [calculate_eval hlen (fpb_eval hb hf)]
    have hp : pythonRound (15 / (1 / SMELTING_TIME_SECONDS)) = 48 := by
      have := pythonRound_int 48
      rw [show ((15 : ℚ) / (1 / SMELTING_TIME_SECONDS)) = ((48 : ℤ) : ℚ)
        by norm_num [SMELTING_TIME_SECONDS]]
      exact this
    rw [hp]
    have hcl : clamp_length 48 = 48 := by unfold clamp_length; omega
    rw [hcl]

/-- C4 witness: the theorem at the default configuration (stone furnace,
transport belt, no explicit length) gives exactly 48. -/
theorem c4_witness : calculate_furnace_count {} = .ok 48 :=
  (c4_computed_count {} 15 1 rfl rfl rfl).2 rfl rfl

/-! ### C10 -/

theorem attach_from_names {e : Entity} {s : ℤ} {l : List Entity}
    (he : e ∈ attach_from s l) : ∃ e0 ∈ l, e.name = e0.name := by
  induction l generalizing s with
  | nil => cases he
  | cons a rest ih =>
      rw [attach_from] at he
      rcases List.mem_cons.mp he with h | h
      · exact ⟨a, List.mem_cons_self a rest, by rw [h]⟩
      · obtain ⟨e0, h0, hn⟩ := ih h
        exact ⟨e0, List.mem_cons_of_mem a h0, hn⟩

theorem apply_rotation_names {e : Entity} {l : List Entity} {r : ℤ}
    (he : e ∈ apply_rotation l r) : ∃ e0 ∈ l, e.name = e0.name := by
  unfold apply_rotation at he
  obtain ⟨e0, h0, he0⟩ := List.mem_map.mp he
  exact ⟨e0, h0, by rw [← he0]⟩

theorem canonical_names {count : ℤ} {f b : String} {e : Entity}
    (he : e ∈ canonical_entities count f b) :
    e.name = f ∨ e.name = b ∨ e.name = "inserter" := by
  unfold canonical_entities at he
  simp only [List.mem_append] at he
  rcases he with ((((h | h) | h) | h) | h) | h
  · obtain ⟨p, -, hpe⟩ := List.mem_map.mp h
    exact Or.inl (by rw [← hpe])
  · obtain ⟨p, -, hpe⟩ := List.mem_map.mp h
    exact Or.inr (Or.inl (by rw [← hpe]))
  · obtain ⟨p, -, hpe⟩ := List.mem_map.mp h
    exact Or.inr (Or.inl (by rw [← hpe]))
  · obtain ⟨p, -, hpe⟩ := List.mem_map.mp h
    exact Or.inr (Or.inr (by rw [← hpe]))
  · obtain ⟨p, -, hpe⟩ := List.mem_map.mp h
    exact Or.inr (Or.inr (by rw [← hpe]))
  · simp only [build_coal_merge_entities, List.mem_cons, List.not_mem_nil,
      or_false] at h
    rcases h with rfl | rfl | rfl <;> exact Or.inr (Or.inl rfl)

/-- C10: with an explicit length and opposite sides, generation succeeds for
arbitrary (even unsupported) furnace and belt name strings: no table lookup
happens on this path, the names appear verbatim as entity names, in the icon
reference, and in the metadata block, and no lookup error is raised. -/
theorem c10_explicit_length_no_lookup (f b : String) (L : ℤ) (i o lbl : String)
    (hopp : opposite_sides i o) :
    ∃ doc,
      generate_furnace_blueprint
        { furnace := f, belt := b, length := some L, input_side := i,
          output_side := o, blueprint_label := lbl } = .ok doc ∧
      names_from f b doc = true ∧
      doc.icon_item = f ∧ doc.meta_belt = b ∧ doc.label = lbl := by
  have hv : validate_sides i o = .ok () := by
    rcases hopp with ⟨rfl, rfl⟩ | ⟨rfl, rfl⟩ | ⟨rfl, rfl⟩ | ⟨rfl, rfl⟩ <;> rfl
  obtain ⟨steps, hr⟩ : ∃ s, rotation_steps_for_input i = .ok s := by
    rcases hopp with ⟨rfl, -⟩ | ⟨rfl, -⟩ | ⟨rfl, -⟩ | ⟨rfl, -⟩ <;> exact ⟨_, rfl⟩
  refine ⟨assembled_doc
      { furnace := f, belt := b, length := some L, input_side := i,
        output_side := o, blueprint_label := lbl } (clamp_length L) steps,
    generate_ok_iff.mpr ⟨clamp_length L, steps, rfl, hv, hr, rfl⟩, ?_, rfl, rfl, rfl⟩
  rw [names_from, List.all_eq_true]
  intro e he
  simp only [assembled_doc] at he
  obtain ⟨e1, he1, hn1⟩ := attach_from_names he
  obtain ⟨e2, he2, hn2⟩ := apply_rotation_names he1
  have := canonical_names he2
  rw [hn1, hn2]
  rcases this with h | h | h <;> simp [h]

/-- C10 witness: generation succeeds with furnace "plasma-furnace" and belt
"warp-belt" (names outside the lookup tables) at explicit length 2. -/
theorem c10_witness :
    generate_furnace_blueprint cfgW = .ok docW ∧
    names_from "plasma-furnace" "warp-belt" docW = true ∧
    docW.icon_item = "plasma-furnace" ∧ docW.meta_belt = "warp-belt" ∧
    docW.label = "X" := by
  obtain ⟨doc, hdoc, hn, hi, hm, hl⟩ :=
    c10_explicit_length_no_lookup "plasma-furnace" "warp-belt" 2 "east" "west" "X"
      (by decide)
  have hW : docW = doc := by
    unfold docW cfgW
    rw [hdoc]
    rfl
  unfold cfgW
  rw [hdoc, hW]
  exact ⟨rfl, hn, hi, hm, hl⟩

/-! ### C8 -/

theorem canonical_dirs {count : ℤ} {f b : String} {e : Entity}
    (he : e ∈ canonical_entities count f b) :
    e.direction = 0 ∨ e.direction = 2 ∨ e.direction = 4 := by
  unfold canonical_entities at he
  simp only [List.mem_append] at he
  rcases he with ((((h | h) | h) | h) | h) | h
  · obtain ⟨p, -, hpe⟩ := List.mem_map.mp h
    exact Or.inl (by rw [← hpe]; rfl)
  · obtain ⟨p, -, hpe⟩ := List.mem_map.mp h
    exact Or.inr (Or.inl (by rw [← hpe]; rfl))
  · obtain ⟨p, -, hpe⟩ := List.mem_map.mp h
    exact Or.inr (Or.inl (by rw [← hpe]; rfl))
  · obtain ⟨p, -, hpe⟩ := List.mem_map.mp h
    exact Or.inr (Or.inr (by rw [← hpe]; rfl))
  · obtain ⟨p, -, hpe⟩ := List.mem_map.mp h
    exact Or.inr (Or.inr (by rw [← hpe]; rfl))
  · simp only [build_coal_merge_entities, List.mem_cons, List.not_mem_nil,
      or_false] at h
    rcases h with rfl | rfl | rfl
    · exact Or.inl rfl
    · exact Or.inl rfl
    · exact Or.inr (Or.inl rfl)

theorem apply_rotation_zero {l : List Entity}
    (h : ∀ e ∈ l, e.direction = 0 ∨ e.direction = 2 ∨ e.direction = 4) :
    apply_rotation l 0 = l := by
  induction l with
  | nil => rfl
  | cons a rest ih =>
      have ha := h a (List.mem_cons_self a rest)
      have htail : apply_rotation rest 0 = rest :=
        ih (fun e he => h e (List.mem_cons_of_mem a he))
      unfold apply_rotation at htail ⊢
      rw [List.map_cons, htail]
      congr 1
      obtain ⟨n, x, y, d, en⟩ := a
      rcases ha with h1 | h1 | h1 <;> (simp only at h1; subst h1) <;> rfl

theorem attach_from_map_rot (l : List Entity) (s r : ℤ) :
    attach_from s (apply_rotation l r) = apply_rotation (attach_from s l) r := by
  induction l generalizing s with
  | nil => rfl
  | cons a rest ih =>
      unfold apply_rotation at ih ⊢
      simp only [attach_from, List.map_cons]
      congr 1
      exact ih (s + 1)

/-- C8: generating with input side "east" (output "west") yields exactly the
entity list of the "north"/"south" generation rotated by 1 step through the
geometry kernel; in general, generation builds the canonical north-input
layout and rotates the whole entity set by the index of the input side in
[north, east, south, west]. -/
theorem c8_rotation_determinism :
    (∀ f b L lbl dN dE,
      generate_furnace_blueprint
        { furnace := f, belt := b, length := L, input_side := "north",
          output_side := "south", blueprint_label := lbl } = .ok dN →
      generate_furnace_blueprint
        { furnace := f, belt := b, length := L, input_side := "east",
          output_side := "west", blueprint_label := lbl } = .ok dE →
      dE.entities = apply_rotation dN.entities 1) ∧
    (∀ config doc, generate_furnace_blueprint config = .ok doc →
      ∃ steps, rotation_steps_for_input config.input_side = .ok steps ∧
        doc.entities = attach_entity_numbers (apply_rotation
          (canonical_entities doc.furnace_count config.furnace config.belt)
          steps)) := by
  constructor
  · intro f b L lbl dN dE hN hE
    obtain ⟨cN, sN, hcN, hvN, hrN, rfl⟩ := generate_ok_iff.mp hN
    obtain ⟨cE, sE, hcE, hvE, hrE, rfl⟩ := generate_ok_iff.mp hE
    have hsN : sN = 0 := by
      have h0 : rotation_steps_for_input "north" = Except.ok sN := hrN
      rw [show rotation_steps_for_input "north" = (Except.ok 0 : Except Err ℤ)
        from rfl] at h0
      exact (Except.ok.inj h0).symm
    have hsE : sE = 1 := by
      have h1 : rotation_steps_for_input "east" = Except.ok sE := hrE
      rw [show rotation_steps_for_input "east" = (Except.ok 1 : Except Err ℤ)
        from rfl] at h1
      exact (Except.ok.inj h1).symm
    have hcc : cE = cN := by
      have hcE2 : calculate_furnace_count
          { furnace := f, belt := b, length := L, input_side := "north",
            output_side := "south", blueprint_label := lbl } =
          Except.ok cE := hcE
      rw [hcN] at hcE2
      exact (Except.ok.inj hcE2).symm
    subst hsN
    subst hsE
    subst hcc
    simp only [assembled_doc, attach_entity_numbers]
    rw [apply_rotation_zero (fun e he => canonical_dirs he)]
    exact attach_from_map_rot _ 1 1
  · intro config doc h
    obtain ⟨count, steps, hc, hv, hr, rfl⟩ := generate_ok_iff.mp h
    exact ⟨steps, hr, rfl⟩

/-- C8 witness: explicit length 1, east-input generation equals the
north-input generation rotated by one step. -/
theorem c8_witness : docE0.entities = apply_rotation docN0.entities 1 :=
  c8_rotation_determinism.1 "stone-furnace" "transport-belt" (some 1)
    "Furnace line" docN0 docE0 (by rfl) (by rfl)

/-! ### C7: base64 round trip -/

theorem b64_index_char : ∀ n : Fin 64, b64Index (b64Char n.val) = some n.val := by
  decide

theorem b64_char_ne_pad : ∀ n : Fin 64, b64Char n.val ≠ '=' := by
  decide

theorem b64_roundtrip (bs : List ℕ) (h : ∀ x ∈ bs, x < 256) :
    b64DecodeChars (b64EncodeChars bs) = some bs := by
  induction bs using b64EncodeChars.induct with
  | case1 => rfl
  | case2 a =>
      have ha : a < 256 := h a (by simp)
      have h1 : b64Index (b64Char (a / 4)) = some (a / 4) :=
        b64_index_char ⟨a / 4, by omega⟩
      have h2 : b64Index (b64Char (a % 4 * 16)) = some (a % 4 * 16) :=
        b64_index_char ⟨a % 4 * 16, by omega⟩
      simp only [b64EncodeChars, b64DecodeChars, h1, h2]
      simp only [reduceIte, and_self, if_true]
      simp only [Option.some.injEq, List.cons.injEq, and_true]
      omega
  | case3 a b =>
      have ha : a < 256 := h a (by simp)
      have hb : b < 256 := h b (by simp)
      have h1 : b64Index (b64Char (a / 4)) = some (a / 4) :=
        b64_index_char ⟨a / 4, by omega⟩
      have h2 : b64Index (b64Char (a % 4 * 16 + b / 16)) =
          some (a % 4 * 16 + b / 16) :=
        b64_index_char ⟨a % 4 * 16 + b / 16, by omega⟩
      have h3 : b64Index (b64Char (b % 16 * 4)) = some (b % 16 * 4) :=
        b64_index_char ⟨b % 16 * 4, by omega⟩
      have hne3 : b64Char (b % 16 * 4) ≠ '=' := b64_char_ne_pad ⟨b % 16 * 4, by omega⟩
      simp only [b64EncodeChars, b64DecodeChars, h1, h2, h3, if_neg hne3]
      simp only [reduceIte, and_self, if_true]
      simp only [Option.some.injEq, List.cons.injEq, and_true]
      omega
  | case4 a b c rest ih =>
      have ha : a < 256 := h a (by simp)
      have hb : b < 256 := h b (by simp)
      have hc : c < 256 := h c (by simp)
      have hrest : ∀ x ∈ rest, x < 256 := fun x hx => h x (by simp [hx])
      have h1 : b64Index (b64Char (a / 4)) = some (a / 4) :=
        b64_index_char ⟨a / 4, by omega⟩
      have h2 : b64Index (b64Char (a % 4 * 16 + b / 16)) =
          some (a % 4 * 16 + b / 16) :=
        b64_index_char ⟨a % 4 * 16 + b / 16, by omega⟩
      have h3 : b64Index (b64Char (b % 16 * 4 + c / 64)) =
          some (b % 16 * 4 + c / 64) :=
        b64_index_char ⟨b % 16 * 4 + c / 64, by omega⟩
      have h4 : b64Index (b64Char (c % 64)) = some (c % 64) :=
        b64_index_char ⟨c % 64, by omega⟩
      have hne3 : b64Char (b % 16 * 4 + c / 64) ≠ '=' :=
        b64_char_ne_pad ⟨b % 16 * 4 + c / 64, by omega⟩
      have hne4 : b64Char (c % 64) ≠ '=' := b64_char_ne_pad ⟨c % 64, by omega⟩
      simp only [b64EncodeChars, b64DecodeChars, h1, h2, h3, h4,
        if_neg hne3, if_neg hne4, ih hrest]
      simp only [Option.some.injEq, List.cons.injEq, and_true]
      refine ⟨by omega, by omega, by omega⟩

/-- C7: for every document produced from a valid configuration, the encoded
output is exactly the version character "0" followed by the standard padded
base64 encoding of the deflate-compressed canonical JSON bytes, and
reversing exactly these steps (strip the version character, base64-decode,
inflate, parse JSON) reproduces the structured-mode JSON of the same
document.  `deflate`/`inflate` abstract the external `zlib` compressor
(hypotheses: inflation inverts deflation on these bytes and deflation yields
bytes), and `parse` abstracts the external JSON parser (hypothesis: it
inverts the canonical serialization of this document). -/
theorem c7_encode_round_trip (deflate : List ℕ → List ℕ)
    (inflate : List ℕ → Option (List ℕ)) (parse : List ℕ → Option Json)
    (config : FurnaceLineConfig) (doc : BlueprintDoc)
    (hgen : generate_furnace_blueprint config = .ok doc)
    (hbytes : ∀ x ∈ deflate (strBytes (Json.dumps (docJson doc))), x < 256)
    (hinf : inflate (deflate (strBytes (Json.dumps (docJson doc)))) =
      some (strBytes (Json.dumps (docJson doc))))
    (hparse : parse (strBytes (Json.dumps (docJson doc))) = some (docJson doc)) :
    encode_blueprint deflate (docJson doc) =
      "0" ++ String.mk (b64EncodeChars
        (deflate (strBytes (Json.dumps (docJson doc))))) ∧
    decode_blueprint inflate parse (encode_blueprint deflate (docJson doc)) =
      some (docJson doc) := by
  refine ⟨rfl, ?_⟩
  unfold decode_blueprint encode_blueprint
  have hdata : ("0" ++ String.mk (b64EncodeChars
      (deflate (strBytes (Json.dumps (docJson doc)))))).data =
      '0' :: b64EncodeChars (deflate (strBytes (Json.dumps (docJson doc)))) := rfl
  rw [hdata]
  simp only [if_pos]
  rw [b64_roundtrip _ hbytes]
  simp [hinf, hparse]

/-- C7 witness: round trip at the `length=1` document, with a concrete
compressor/decompressor pair and the canonical-bytes parser. -/
theorem c7_witness :
    decode_blueprint inflate0 parse0 (encode_blueprint deflate0 (docJson doc0)) =
      some (docJson doc0) :=
  (c7_encode_round_trip deflate0 inflate0 parse0 cfg0 doc0 (by rfl)
    (by intro x hx; simp [deflate0] at hx) rfl (by simp [parse0, bytes0])).2

end Blueprint
